import Mathlib

/-!
Verification of the convert-to-webp repository (two Python scripts,
`gif_to_webp.py` and `image_to_webp.py`) against its natural-language
specification.

The scripts drive the PIL codec library.  The embedding models a decoded
image container (`GifData`) as the list of its frames together with its
container-level loop count; an open PIL image (`Handle`) is a container
plus the read cursor (`tell`/`seek` position).  Pixel-level codec content
(the actual RGBA values produced by `Image.convert`) is external to the
repository, so a converted buffer keeps the source frame's pixel list and
the requested mode string is recorded alongside it in the encoded output.
Mutable pixel buffers (needed to state the no-aliasing property of the
frame-extraction loop) live in an explicit `Store`; `Image.convert` and
`Image.copy` each allocate a fresh buffer, exactly as in PIL.
-/

/-- Errors raised by the modelled PIL / filesystem operations:
`eofError` is PIL's end-of-frame-sequence signal raised by `seek`,
`unreadableFile` covers `Image.open` failing on a missing or undecodable
file, and `indexError` is Python's error for `frames[0]` on an empty list. -/
inductive PyError where
  | eofError
  | unreadableFile
  | indexError
deriving DecidableEq

/-- One frame of a decoded container: its pixel buffer, its PIL mode
string (e.g. "P", "RGB", "RGBA", "LA"), whether the key "transparency"
is present in the frame's `info` dictionary, and the value of the
"duration" key of `info` (`none` when the container omits it). -/
structure SrcFrame where
  pixels : List Nat
  mode : String
  transparency : Bool
  duration : Option Nat
deriving DecidableEq

/-- A decoded image container: its frame sequence and the value of the
container-level "loop" key of `info` (`none` when unspecified). -/
structure GifData where
  frames : List SrcFrame
  loop : Option Nat
deriving DecidableEq

/-- An open PIL image: the decoded container plus the current read
cursor, as reported by `img.tell()`. -/
structure Handle where
  data : GifData
  pos : Nat
deriving DecidableEq

/-- Fallback frame used to totalise list indexing; every reachable
access is guarded by a bound so the fallback is never observed. -/
def defaultSrcFrame : SrcFrame := ⟨[], "", false, none⟩

/-- `img.seek(i)`: succeeds and moves the cursor when frame `i` exists,
raises `EOFError` (leaving the cursor unchanged) when it does not. -/
def seek (h : Handle) (i : Nat) : Except PyError Handle :=
  if i < h.data.frames.length then .ok { h with pos := i } else .error .eofError

/-- `is_animated_gif` (identical in both scripts):
`try: img.seek(1); return True / except EOFError: return False /
finally: img.seek(0)`.  The `finally` clause runs on both branches; if
its `seek(0)` itself raised, that error would propagate. -/
def is_animated_gif (img : Handle) : Except PyError (Bool × Handle) :=
  match seek img 1 with
  | .ok img1 =>
    match seek img1 0 with
    | .ok img0 => .ok (true, img0)
    | .error e => .error e
  | .error _ =>
    match seek img 0 with
    | .ok img0 => .ok (false, img0)
    | .error e => .error e

/-- Heap of pixel buffers.  An address is an index into `bufs`;
allocation appends. -/
structure Store where
  bufs : List (List Nat)
deriving DecidableEq

/-- Allocate a fresh buffer, returning its address. -/
def Store.alloc (st : Store) (b : List Nat) : Nat × Store :=
  (st.bufs.length, ⟨st.bufs ++ [b]⟩)

/-- Read the buffer at an address. -/
def Store.read (st : Store) (a : Nat) : List Nat :=
  st.bufs.getD a []

/-- Overwrite the buffer at an address (mutation of pixel data). -/
def Store.write (st : Store) (a : Nat) (b : List Nat) : Store :=
  ⟨st.bufs.set a b⟩

/-- One run of the frame-capture loop of the animated branch
(`while True: frame = img.convert("RGBA"); frames.append(frame.copy());
durations.append(img.info.get("duration", 100)); img.seek(img.tell()+1)`
until `EOFError`).  `img.convert` allocates a fresh buffer for the
converted frame and `frame.copy()` allocates another, independent copy —
both modelled as `Store.alloc`.  Returns the captured buffer addresses,
the captured durations, the final store, and the final handle.  The fuel
argument is instantiated with the number of remaining frames by
`extractLoop`, which makes the recursion structural; the loop itself
terminates via the `seek` failure, never via fuel. -/
def extractGo : Nat → Handle → Store → List Nat × List Nat × Store × Handle
  | 0, h, st => ([], [], st, h)
  | fuel + 1, h, st =>
    let cur := h.data.frames.getD h.pos defaultSrcFrame
    let conv := st.alloc cur.pixels
    let copied := conv.2.alloc (conv.2.read conv.1)
    let dur := cur.duration.getD 100
    match seek h (h.pos + 1) with
    | .ok h2 =>
      let r := extractGo fuel h2 copied.2
      (copied.1 :: r.1, dur :: r.2.1, r.2.2.1, r.2.2.2)
    | .error _ => ([copied.1], [dur], copied.2, h)

/-- The frame-capture loop, run from the handle's current position to
the end of the frame sequence. -/
def extractLoop (h : Handle) (st : Store) : List Nat × List Nat × Store × Handle :=
  extractGo (h.data.frames.length - h.pos) h st

/-- Addresses of the captured frame buffers of one extraction pass. -/
def extractAddrs (h : Handle) (st : Store) : List Nat :=
  (extractLoop h st).1

/-- Store after one extraction pass. -/
def extractStore (h : Handle) (st : Store) : Store :=
  (extractLoop h st).2.2.1

/-- Characters of the final path component (`pathlib.PurePath.name`). -/
def pathNameChars (p : String) : List Char :=
  (p.toList.reverse.takeWhile (fun c => c != '/')).reverse

/-- `pathlib.PurePath.name`: the final path component. -/
def pathName (p : String) : String :=
  ⟨pathNameChars p⟩

/-- `pathlib.PurePath.suffix`: the last extension of the final
component, including its dot; empty when the last dot is absent, leading
or trailing. -/
def pathSuffix (p : String) : String :=
  let n := pathNameChars p
  let afterDot := n.reverse.takeWhile (fun c => c != '.')
  if afterDot.length = n.length then ""
  else
    let i := n.length - afterDot.length - 1
    if 0 < i ∧ 0 < afterDot.length then ⟨'.' :: afterDot.reverse⟩ else ""

/-- `pathlib.PurePath.stem`: the final component without its last
extension. -/
def pathStem (p : String) : String :=
  let n := pathNameChars p
  let afterDot := n.reverse.takeWhile (fun c => c != '.')
  if afterDot.length = n.length then ⟨n⟩
  else
    let i := n.length - afterDot.length - 1
    if 0 < i ∧ 0 < afterDot.length then ⟨n.take i⟩ else ⟨n⟩

/-- `pathlib`'s `/` operator for a relative right-hand side. -/
def pathJoin (a b : String) : String :=
  a ++ "/" ++ b

/-- `str.lower()` (ASCII case folding, as used on extension strings). -/
def strLower (s : String) : String :=
  ⟨s.toList.map Char.toLower⟩

/-- The encoded WebP file produced by `save`: either an animated
container (`save_all=True` with `append_images`, per-frame durations and
loop count) or a single static image.  Each encoded frame records the
mode requested from `Image.convert` alongside its pixel buffer. -/
inductive WebPFile where
  | animated (frames : List (String × List Nat)) (durations : List Nat) (loop : Nat)
      (quality : Nat) (lossless : Bool) (method : Nat)
  | static (mode : String) (pixels : List Nat)
      (quality : Nat) (lossless : Bool) (method : Nat)
deriving DecidableEq

/-- Number of frames encoded into a WebP file. -/
def WebPFile.frameCount : WebPFile → Nat
  | .animated frames _ _ _ _ _ => frames.length
  | .static _ _ _ _ _ => 1

/-- Modes of the encoded frames of a WebP file. -/
def WebPFile.modes : WebPFile → List String
  | .animated frames _ _ _ _ _ => frames.map Prod.fst
  | .static mode _ _ _ _ => [mode]

/-- The `(output_path, is_animated)` tuple returned by the converters. -/
structure ConversionResult where
  outputPath : String
  isAnimated : Bool
deriving DecidableEq

/-- `Image.open(path)`: fails when the filesystem has no decodable image
at the path.  PIL decodes the first frame on open, so a container with
no frame at all is not a decodable image. -/
def imageOpen (fs : String → Option GifData) (path : String) : Except PyError Handle :=
  match fs path with
  | none => .error .unreadableFile
  | some d => if d.frames.isEmpty then .error .unreadableFile else .ok ⟨d, 0⟩

/-- Shared body of the animated-save branch, written identically in both
scripts: capture all frames and durations from the current position,
then `frames[0].save(output_path, save_all=True,
append_images=frames[1:], duration=durations,
loop=img.info.get("loop", 0), quality=..., lossless=..., method=...)`.
`frames[0]` on an empty capture list would raise `IndexError`. -/
def animatedSave (img0 : Handle) (output_path : String)
    (quality : Nat) (lossless : Bool) (method : Nat) (is_animated : Bool) :
    Except PyError ConversionResult × List (String × WebPFile) :=
  let r := extractLoop img0 ⟨[]⟩
  let frames := r.1.map (fun a => ("RGBA", r.2.2.1.read a))
  let durations := r.2.1
  let imgEnd := r.2.2.2
  match frames with
  | [] => (.error .indexError, [])
  | f0 :: rest =>
    (.ok ⟨output_path, is_animated⟩,
     [(output_path,
       .animated (f0 :: rest) durations (imgEnd.data.loop.getD 0) quality lossless method)])

/-- `convert_gif_to_webp` from `gif_to_webp.py`: derives the output
path as `output_dir / (stem + ".webp")`, opens the input, probes
animation with `is_animated_gif`, then either saves an animated WebP
(animated source and `preserve_animation`) or converts the current
frame with `img.convert("RGBA")` and saves a static WebP.  Returns the
result together with the list of files written. -/
def convert_gif_to_webp (fs : String → Option GifData) (input_path output_dir : String)
    (quality : Nat) (lossless : Bool) (method : Nat) (preserve_animation : Bool) :
    Except PyError ConversionResult × List (String × WebPFile) :=
  let output_path := pathJoin output_dir (pathStem input_path ++ ".webp")
  match imageOpen fs input_path with
  | .error e => (.error e, [])
  | .ok img =>
    match is_animated_gif img with
    | .error e => (.error e, [])
    | .ok (is_animated, img0) =>
      if is_animated && preserve_animation then
        animatedSave img0 output_path quality lossless method is_animated
      else
        let cur := img0.data.frames.getD img0.pos defaultSrcFrame
        (.ok ⟨output_path, is_animated⟩,
         [(output_path, .static "RGBA" cur.pixels quality lossless method)])

/-- The mode chosen by the static branch of `convert_image_to_webp`:
`img.convert("RGBA")` when `img.mode in ("RGBA", "LA") or
(img.mode == "P" and "transparency" in img.info)`, else
`img.convert("RGB")`. -/
def staticTargetMode (mode : String) (transparency : Bool) : String :=
  if (mode == "RGBA" || mode == "LA") || (mode == "P" && transparency) then "RGBA"
  else "RGB"

/-- `convert_image_to_webp` from `image_to_webp.py`, with the animation
detector abstracted as the parameter `det` (instantiated with
`is_animated_gif` below): the detector is consulted only when the
lowercased filename suffix is ".gif"; otherwise `is_animated` stays
`False`.  The animated branch is the same as in `gif_to_webp.py`; the
static branch chooses RGBA or RGB per `staticTargetMode`. -/
def convert_image_to_webp_withDet
    (det : Handle → Except PyError (Bool × Handle))
    (fs : String → Option GifData) (input_path output_dir : String)
    (quality : Nat) (lossless : Bool) (method : Nat) (preserve_animation : Bool) :
    Except PyError ConversionResult × List (String × WebPFile) :=
  let output_path := pathJoin output_dir (pathStem input_path ++ ".webp")
  match imageOpen fs input_path with
  | .error e => (.error e, [])
  | .ok img =>
    let is_gif := strLower (pathSuffix input_path) == ".gif"
    match (if is_gif then det img else .ok (false, img)) with
    | .error e => (.error e, [])
    | .ok (is_animated, img0) =>
      if is_animated && preserve_animation then
        animatedSave img0 output_path quality lossless method is_animated
      else
        let cur := img0.data.frames.getD img0.pos defaultSrcFrame
        let target := staticTargetMode cur.mode cur.transparency
        (.ok ⟨output_path, is_animated⟩,
         [(output_path, .static target cur.pixels quality lossless method)])

/-- `convert_image_to_webp` proper, using the real detector. -/
def convert_image_to_webp :
    (String → Option GifData) → String → String → Nat → Bool → Nat → Bool →
    Except PyError ConversionResult × List (String × WebPFile) :=
  convert_image_to_webp_withDet is_animated_gif

/-- A directory tree as seen by the file finders: the immediate file
entries (for `glob`) and all descendant file paths (for `rglob`). -/
structure Dir where
  files : List String
  rfiles : List String

/-- Matching of a glob pattern of the shape `*.<ext>` (the only shape
both scripts use) against a path: the final component must end with the
pattern's extension part, case-sensitively, as `fnmatch` does on a
POSIX filesystem. -/
def globSuffixMatch (pat : String) (p : String) : Bool :=
  (pat.toList.drop 1).isSuffixOf (pathNameChars p)

/-- Python's `sorted(set(xs))`: the distinct elements in ascending
order. -/
def pySortedSet (l : List String) : List String :=
  l.dedup.insertionSort (· ≤ ·)

/-- `find_gif_files` from `gif_to_webp.py`: glob `*.gif` then `*.GIF`
(recursively when asked), then `sorted(set(...))`. -/
def find_gif_files (input_dir : Dir) (recursive : Bool) : List String :=
  let gif_files :=
    if recursive then
      input_dir.rfiles.filter (globSuffixMatch "*.gif")
        ++ input_dir.rfiles.filter (globSuffixMatch "*.GIF")
    else
      input_dir.files.filter (globSuffixMatch "*.gif")
        ++ input_dir.files.filter (globSuffixMatch "*.GIF")
  pySortedSet gif_files

/-- The `extensions` dictionary of `find_image_files`, combined with
`extensions.get(file_type, extensions["all"])`: unknown keys fall back
to the "all" pattern list. -/
def searchPatterns (file_type : String) : List String :=
  if file_type == "gif" then ["*.gif", "*.GIF"]
  else if file_type == "jpg" then ["*.jpg", "*.JPG", "*.jpeg", "*.JPEG"]
  else if file_type == "png" then ["*.png", "*.PNG"]
  else ["*.gif", "*.GIF", "*.jpg", "*.JPG", "*.jpeg", "*.JPEG", "*.png", "*.PNG"]

/-- `find_image_files` from `image_to_webp.py`: extend the candidate
list with the matches of each pattern in turn, then `sorted(set(...))`. -/
def find_image_files (input_dir : Dir) (file_type : String) (recursive : Bool) :
    List String :=
  let search_extensions := searchPatterns file_type
  let names := if recursive then input_dir.rfiles else input_dir.files
  let image_files := search_extensions.flatMap (fun pat => names.filter (globSuffixMatch pat))
  pySortedSet image_files

/-! ### Helper lemmas about the embedded operations -/

theorem imageOpen_ok {fs : String → Option GifData} {p : String} {d : GifData}
    (hd : fs p = some d) (hne : d.frames ≠ []) :
    imageOpen fs p = .ok ⟨d, 0⟩ := by
  simp [imageOpen, hd, List.isEmpty_iff, hne]

theorem is_animated_gif_ok (h : Handle) (ha : 0 < h.data.frames.length) :
    is_animated_gif h = .ok (decide (1 < h.data.frames.length), { h with pos := 0 }) := by
  by_cases h1 : 1 < h.data.frames.length
  · simp [is_animated_gif, seek, h1, ha]
  · simp [is_animated_gif, seek, h1, ha]

theorem extractGo_addrs (fuel : Nat) : ∀ (h : Handle) (st : Store),
    h.data.frames.length = h.pos + fuel →
    (extractGo fuel h st).1 =
      (List.range fuel).map (fun i => st.bufs.length + 2 * i + 1) := by
  induction fuel with
  | zero => intro h st _; simp [extractGo]
  | succ fuel ih =>
    intro h st hlen
    by_cases hc : h.pos + 1 < h.data.frames.length
    · have h2 : ({ h with pos := h.pos + 1 } : Handle).data.frames.length
          = ({ h with pos := h.pos + 1 } : Handle).pos + fuel := by
        simpa using by omega
      simp only [extractGo, seek, hc, if_pos, Store.alloc, Store.read]
      rw [ih _ _ h2]
      simp only [List.length_append, List.length_singleton]
      rw [List.range_succ_eq_map, List.map_cons, List.map_map]
      congr 1
      apply List.map_congr_left
      intro i _
      simp only [Function.comp_apply]
      omega
    · have h0 : fuel = 0 := by omega
      subst h0
      simp only [extractGo, seek, hc, if_neg, not_false_iff]
      simp [Store.alloc, List.range_succ]

theorem extractGo_durs (fuel : Nat) : ∀ (h : Handle) (st : Store),
    h.data.frames.length = h.pos + fuel →
    (extractGo fuel h st).2.1 =
      (h.data.frames.drop h.pos).map (fun f => f.duration.getD 100) := by
  induction fuel with
  | zero =>
    intro h st hlen
    have : h.data.frames.drop h.pos = [] := by
      apply List.drop_eq_nil_of_le; omega
    simp [extractGo, this]
  | succ fuel ih =>
    intro h st hlen
    have hpos : h.pos < h.data.frames.length := by omega
    have hdrop := List.drop_eq_getElem_cons hpos
    have hcur : h.data.frames.getD h.pos defaultSrcFrame = h.data.frames[h.pos] :=
      List.getD_eq_getElem _ _ hpos
    by_cases hc : h.pos + 1 < h.data.frames.length
    · have h2 : ({ h with pos := h.pos + 1 } : Handle).data.frames.length
          = ({ h with pos := h.pos + 1 } : Handle).pos + fuel := by
        simpa using by omega
      simp only [extractGo, seek, hc, if_pos, Store.alloc, Store.read]
      rw [ih _ _ h2, hdrop, hcur, List.map_cons]
    · have h1 : h.data.frames.length = h.pos + 1 := by omega
      have hnil : h.data.frames.drop (h.pos + 1) = [] := by
        apply List.drop_eq_nil_of_le; omega
      simp only [extractGo, seek, hc, if_neg, not_false_iff, Store.alloc]
      rw [hdrop, hcur, List.map_cons, hnil, List.map_nil]

theorem extractGo_handle_data (fuel : Nat) : ∀ (h : Handle) (st : Store),
    ((extractGo fuel h st).2.2.2).data = h.data := by
  induction fuel with
  | zero => intro h st; simp [extractGo]
  | succ fuel ih =>
    intro h st
    by_cases hc : h.pos + 1 < h.data.frames.length
    · simp only [extractGo, seek, hc, if_pos, Store.alloc, Store.read]
      simpa using ih { h with pos := h.pos + 1 } _
    · simp [extractGo, seek, hc, Store.alloc]

theorem store_read_write_ne (st : Store) (a b : Nat) (v : List Nat) (hab : a ≠ b) :
    (st.write a v).read b = st.read b := by
  simp only [Store.write, Store.read, List.getD_eq_getElem?_getD]
  rw [List.getElem?_set_ne hab]

theorem animatedSave_ok (img0 : Handle) (outP : String) (q : Nat) (l : Bool) (m : Nat)
    (b : Bool) (h0 : img0.pos = 0) (hlen : 0 < img0.data.frames.length) :
    ∃ frames, animatedSave img0 outP q l m b =
      (.ok ⟨outP, b⟩,
       [(outP, .animated frames (img0.data.frames.map (fun f => f.duration.getD 100))
          (img0.data.loop.getD 0) q l m)])
      ∧ frames.length = img0.data.frames.length
      ∧ ∀ fr ∈ frames, fr.1 = "RGBA" := by
  obtain ⟨dd, p⟩ := img0
  simp only at h0 hlen
  subst h0
  have hfe : (⟨dd, 0⟩ : Handle).data.frames.length
      = (⟨dd, 0⟩ : Handle).pos + ((⟨dd, 0⟩ : Handle).data.frames.length - (⟨dd, 0⟩ : Handle).pos) := by
    simp
  have haddrs := extractGo_addrs _ ⟨dd, 0⟩ ⟨[]⟩ hfe
  have hdurs := extractGo_durs _ ⟨dd, 0⟩ ⟨[]⟩ hfe
  have hdata := extractGo_handle_data
    ((⟨dd, 0⟩ : Handle).data.frames.length - (⟨dd, 0⟩ : Handle).pos) ⟨dd, 0⟩ ⟨[]⟩
  refine ⟨(extractLoop ⟨dd, 0⟩ ⟨[]⟩).1.map
    (fun a => ("RGBA", (extractLoop ⟨dd, 0⟩ ⟨[]⟩).2.2.1.read a)), ?_, ?_, ?_⟩
  · unfold animatedSave
    have hmaplen : ((extractLoop ⟨dd, 0⟩ ⟨[]⟩).1.map
        (fun a => ("RGBA", (extractLoop ⟨dd, 0⟩ ⟨[]⟩).2.2.1.read a))).length
        = dd.frames.length := by
      simp only [List.length_map, extractLoop, haddrs, List.length_range]
      simp
    cases hF : (extractLoop ⟨dd, 0⟩ ⟨[]⟩).1.map
        (fun a => ("RGBA", (extractLoop ⟨dd, 0⟩ ⟨[]⟩).2.2.1.read a)) with
    | nil =>
      rw [hF] at hmaplen
      simp at hmaplen
      omega
    | cons f0 rest =>
      simp only [hF]
      unfold extractLoop at hF ⊢
      rw [hdurs, hdata]
      simp [hF]
  · simp only [List.length_map, extractLoop, haddrs, List.length_range]
    simp
  · intro fr hfr
    simp only [List.mem_map] at hfr
    obtain ⟨a, _, rfl⟩ := hfr
    rfl

theorem convert_gif_animated_spec {fs : String → Option GifData} {inp outDir : String}
    {q : Nat} {l : Bool} {m : Nat} {d : GifData}
    (hd : fs inp = some d) (h2 : 2 ≤ d.frames.length) :
    ∃ frames,
      convert_gif_to_webp fs inp outDir q l m true =
        (.ok ⟨pathJoin outDir (pathStem inp ++ ".webp"), true⟩,
         [(pathJoin outDir (pathStem inp ++ ".webp"),
           .animated frames (d.frames.map (fun f => f.duration.getD 100))
             (d.loop.getD 0) q l m)])
      ∧ frames.length = d.frames.length
      ∧ ∀ fr ∈ frames, fr.1 = "RGBA" := by
  have hne : d.frames ≠ [] := by
    intro h
    rw [h] at h2
    simp at h2
  have hopen := imageOpen_ok hd hne
  have hdet := is_animated_gif_ok ⟨d, 0⟩ (by simp; omega)
  have hb : decide (1 < d.frames.length) = true := by simp; omega
  obtain ⟨frames, hsave, hlen, hmode⟩ :=
    animatedSave_ok ⟨d, 0⟩ (pathJoin outDir (pathStem inp ++ ".webp")) q l m true rfl
      (by simp; omega)
  refine ⟨frames, ?_, hlen, hmode⟩
  unfold convert_gif_to_webp
  simp only [hopen, hdet, hb, Bool.and_self, if_true]
  simpa using hsave

theorem convert_gif_static_spec {fs : String → Option GifData} {inp outDir : String}
    {q : Nat} {l : Bool} {m : Nat} {pres : Bool} {d : GifData}
    (hd : fs inp = some d) (hne : d.frames ≠ [])
    (hstat : (decide (1 < d.frames.length) && pres) = false) :
    convert_gif_to_webp fs inp outDir q l m pres =
      (.ok ⟨pathJoin outDir (pathStem inp ++ ".webp"), decide (1 < d.frames.length)⟩,
       [(pathJoin outDir (pathStem inp ++ ".webp"),
         .static "RGBA" (d.frames.getD 0 defaultSrcFrame).pixels q l m)]) := by
  have hopen := imageOpen_ok hd hne
  have hdet := is_animated_gif_ok ⟨d, 0⟩ (by simp [List.length_pos, hne])
  unfold convert_gif_to_webp
  simp [hopen, hdet, hstat]

theorem convert_image_nogif_spec {det : Handle → Except PyError (Bool × Handle)}
    {fs : String → Option GifData} {inp outDir : String}
    {q : Nat} {l : Bool} {m : Nat} {pres : Bool} {d : GifData}
    (hd : fs inp = some d) (hne : d.frames ≠ [])
    (hsuf : (strLower (pathSuffix inp) == ".gif") = false) :
    convert_image_to_webp_withDet det fs inp outDir q l m pres =
      (.ok ⟨pathJoin outDir (pathStem inp ++ ".webp"), false⟩,
       [(pathJoin outDir (pathStem inp ++ ".webp"),
         .static (staticTargetMode (d.frames.getD 0 defaultSrcFrame).mode
             (d.frames.getD 0 defaultSrcFrame).transparency)
           (d.frames.getD 0 defaultSrcFrame).pixels q l m)]) := by
  have hopen := imageOpen_ok hd hne
  unfold convert_image_to_webp_withDet
  simp [hopen, hsuf]

theorem convert_image_gif_animated_spec {fs : String → Option GifData} {inp outDir : String}
    {q : Nat} {l : Bool} {m : Nat} {d : GifData}
    (hd : fs inp = some d) (h2 : 2 ≤ d.frames.length)
    (hsuf : (strLower (pathSuffix inp) == ".gif") = true) :
    ∃ frames,
      convert_image_to_webp fs inp outDir q l m true =
        (.ok ⟨pathJoin outDir (pathStem inp ++ ".webp"), true⟩,
         [(pathJoin outDir (pathStem inp ++ ".webp"),
           .animated frames (d.frames.map (fun f => f.duration.getD 100))
             (d.loop.getD 0) q l m)])
      ∧ frames.length = d.frames.length
      ∧ ∀ fr ∈ frames, fr.1 = "RGBA" := by
  have hne : d.frames ≠ [] := by
    intro h
    rw [h] at h2
    simp at h2
  have hopen := imageOpen_ok hd hne
  have hdet := is_animated_gif_ok ⟨d, 0⟩ (by simp; omega)
  have hb : decide (1 < d.frames.length) = true := by simp; omega
  obtain ⟨frames, hsave, hlen, hmode⟩ :=
    animatedSave_ok ⟨d, 0⟩ (pathJoin outDir (pathStem inp ++ ".webp")) q l m true rfl
      (by simp; omega)
  refine ⟨frames, ?_, hlen, hmode⟩
  unfold convert_image_to_webp convert_image_to_webp_withDet
  simp only [hopen, hsuf, if_true, hdet, hb, Bool.and_self]
  simpa using hsave

theorem convert_image_gif_static_spec {fs : String → Option GifData} {inp outDir : String}
    {q : Nat} {l : Bool} {m : Nat} {pres : Bool} {d : GifData}
    (hd : fs inp = some d) (hne : d.frames ≠ [])
    (hsuf : (strLower (pathSuffix inp) == ".gif") = true)
    (hstat : (decide (1 < d.frames.length) && pres) = false) :
    convert_image_to_webp fs inp outDir q l m pres =
      (.ok ⟨pathJoin outDir (pathStem inp ++ ".webp"), decide (1 < d.frames.length)⟩,
       [(pathJoin outDir (pathStem inp ++ ".webp"),
         .static (staticTargetMode (d.frames.getD 0 defaultSrcFrame).mode
             (d.frames.getD 0 defaultSrcFrame).transparency)
           (d.frames.getD 0 defaultSrcFrame).pixels q l m)]) := by
  have hopen := imageOpen_ok hd hne
  have hdet := is_animated_gif_ok ⟨d, 0⟩ (by simp [List.length_pos, hne])
  unfold convert_image_to_webp convert_image_to_webp_withDet
  simp [hopen, hsuf, hdet, hstat]

theorem convert_open_fail_gif {fs : String → Option GifData} {inp outDir : String}
    {q : Nat} {l : Bool} {m : Nat} {pres : Bool}
    (hd : fs inp = none) :
    convert_gif_to_webp fs inp outDir q l m pres = (.error .unreadableFile, []) := by
  unfold convert_gif_to_webp
  simp [imageOpen, hd]

theorem convert_open_fail_image {fs : String → Option GifData} {inp outDir : String}
    {q : Nat} {l : Bool} {m : Nat} {pres : Bool}
    (hd : fs inp = none) :
    convert_image_to_webp fs inp outDir q l m pres = (.error .unreadableFile, []) := by
  unfold convert_image_to_webp convert_image_to_webp_withDet
  simp [imageOpen, hd]

theorem pySortedSet_sorted (l : List String) :
    List.Sorted (· ≤ ·) (pySortedSet l) :=
  List.sorted_insertionSort _ _

theorem pySortedSet_nodup (l : List String) : (pySortedSet l).Nodup :=
  (List.perm_insertionSort _ _).nodup_iff.mpr (List.nodup_dedup l)

theorem mem_pySortedSet {a : String} {l : List String} :
    a ∈ pySortedSet l ↔ a ∈ l := by
  unfold pySortedSet
  rw [List.mem_insertionSort, List.mem_dedup]

/-! ### Concrete fixtures used by witnesses and counterexamples -/

/-- Three-frame animated GIF container: durations 100 ms, 150 ms and
unspecified, loop count 0. -/
def dA : GifData :=
  ⟨[⟨[1, 2], "P", true, some 100⟩, ⟨[3, 4], "P", true, some 150⟩,
    ⟨[5, 6], "P", true, none⟩], some 0⟩

/-- Filesystem holding `dA` at "in/a.gif". -/
def fsA : String → Option GifData :=
  fun p => if p == "in/a.gif" then some dA else none

/-- Single-frame GIF container. -/
def dC : GifData := ⟨[⟨[9], "P", true, some 40⟩], none⟩

/-- Filesystem holding `dC` at "in/c.gif". -/
def fsC : String → Option GifData :=
  fun p => if p == "in/c.gif" then some dC else none

/-- Single-frame palette GIF container without a transparency entry. -/
def d3 : GifData := ⟨[⟨[7], "P", false, none⟩], none⟩

/-- Filesystem holding `d3` at "in/a.gif". -/
def fs3 : String → Option GifData :=
  fun p => if p == "in/a.gif" then some d3 else none

/-- Filesystem holding the three-frame container `dA` at the non-GIF
path "in/b.png". -/
def fsP : String → Option GifData :=
  fun p => if p == "in/b.png" then some dA else none

/-- The empty filesystem: no path maps to a decodable image. -/
def fsNone : String → Option GifData := fun _ => none

/-! ### Claim theorems -/

/-- C1: for every multi-frame GIF input converted with
preserve_animation, each converter encodes an animated WebP whose frame
count equals the source's frame count, whose per-frame duration sequence
equals the source's with 100 ms substituted for omitted durations, and
whose loop count equals the source's with 0 (infinite) substituted when
unspecified.  (For the multi-format converter the input is a GIF when
its lowercased suffix is ".gif".) -/
theorem c1_preserved_animation_matches_source
    (fs : String → Option GifData) (inp outDir : String) (q : Nat) (l : Bool) (m : Nat)
    (d : GifData) (hd : fs inp = some d) (h2 : 2 ≤ d.frames.length) :
    (∃ frames,
      convert_gif_to_webp fs inp outDir q l m true =
        (.ok ⟨pathJoin outDir (pathStem inp ++ ".webp"), true⟩,
         [(pathJoin outDir (pathStem inp ++ ".webp"),
           .animated frames (d.frames.map (fun f => f.duration.getD 100))
             (d.loop.getD 0) q l m)])
      ∧ frames.length = d.frames.length)
    ∧ ((strLower (pathSuffix inp) == ".gif") = true →
      ∃ frames,
        convert_image_to_webp fs inp outDir q l m true =
          (.ok ⟨pathJoin outDir (pathStem inp ++ ".webp"), true⟩,
           [(pathJoin outDir (pathStem inp ++ ".webp"),
             .animated frames (d.frames.map (fun f => f.duration.getD 100))
               (d.loop.getD 0) q l m)])
        ∧ frames.length = d.frames.length) := by
  constructor
  · obtain ⟨frames, he, hlen, _⟩ := convert_gif_animated_spec hd h2
    exact ⟨frames, he, hlen⟩
  · intro hsuf
    obtain ⟨frames, he, hlen, _⟩ := convert_image_gif_animated_spec hd h2 hsuf
    exact ⟨frames, he, hlen⟩

/-- Witness for C1: the three-frame GIF `dA` with durations
[100, 150, unspecified] and loop 0. -/
theorem c1_witness :
    fsA "in/a.gif" = some dA ∧ 2 ≤ dA.frames.length ∧
    ((∃ frames,
      convert_gif_to_webp fsA "in/a.gif" "out" 80 false 4 true =
        (.ok ⟨pathJoin "out" (pathStem "in/a.gif" ++ ".webp"), true⟩,
         [(pathJoin "out" (pathStem "in/a.gif" ++ ".webp"),
           .animated frames (dA.frames.map (fun f => f.duration.getD 100))
             (dA.loop.getD 0) 80 false 4)])
      ∧ frames.length = dA.frames.length)
    ∧ ((strLower (pathSuffix "in/a.gif") == ".gif") = true →
      ∃ frames,
        convert_image_to_webp fsA "in/a.gif" "out" 80 false 4 true =
          (.ok ⟨pathJoin "out" (pathStem "in/a.gif" ++ ".webp"), true⟩,
           [(pathJoin "out" (pathStem "in/a.gif" ++ ".webp"),
             .animated frames (dA.frames.map (fun f => f.duration.getD 100))
               (dA.loop.getD 0) 80 false 4)])
        ∧ frames.length = dA.frames.length)) :=
  ⟨rfl, by decide,
   c1_preserved_animation_matches_source fsA "in/a.gif" "out" 80 false 4 dA rfl (by decide)⟩

/-- C2: for every multi-frame GIF input converted with
preserve_animation = false, the output holds exactly one encoded frame —
the source's frame at index 0 — while the returned result still reports
is_animated = true, reflecting the source rather than the output. -/
theorem c2_flatten_keeps_isanimated_true
    (fs : String → Option GifData) (inp outDir : String) (q : Nat) (l : Bool) (m : Nat)
    (d : GifData) (hd : fs inp = some d) (h2 : 2 ≤ d.frames.length) :
    convert_gif_to_webp fs inp outDir q l m false =
      (.ok ⟨pathJoin outDir (pathStem inp ++ ".webp"), true⟩,
       [(pathJoin outDir (pathStem inp ++ ".webp"),
         .static "RGBA" (d.frames.getD 0 defaultSrcFrame).pixels q l m)])
    ∧ ((strLower (pathSuffix inp) == ".gif") = true →
      ∃ mode, convert_image_to_webp fs inp outDir q l m false =
        (.ok ⟨pathJoin outDir (pathStem inp ++ ".webp"), true⟩,
         [(pathJoin outDir (pathStem inp ++ ".webp"),
           .static mode (d.frames.getD 0 defaultSrcFrame).pixels q l m)])) := by
  have hne : d.frames ≠ [] := by
    intro h
    rw [h] at h2
    simp at h2
  have hb : decide (1 < d.frames.length) = true := by simp; omega
  constructor
  · have hs := @convert_gif_static_spec fs inp outDir q l m false d hd hne (by simp)
    rw [hb] at hs
    exact hs
  · intro hsuf
    have hs := @convert_image_gif_static_spec fs inp outDir q l m false d hd hne hsuf (by simp)
    rw [hb] at hs
    exact ⟨_, hs⟩

/-- Witness for C2: flattening the three-frame GIF `dA`. -/
theorem c2_witness :
    fsA "in/a.gif" = some dA ∧ 2 ≤ dA.frames.length ∧
    (convert_gif_to_webp fsA "in/a.gif" "out" 80 false 4 false =
      (.ok ⟨pathJoin "out" (pathStem "in/a.gif" ++ ".webp"), true⟩,
       [(pathJoin "out" (pathStem "in/a.gif" ++ ".webp"),
         .static "RGBA" (dA.frames.getD 0 defaultSrcFrame).pixels 80 false 4)])
    ∧ ((strLower (pathSuffix "in/a.gif") == ".gif") = true →
      ∃ mode, convert_image_to_webp fsA "in/a.gif" "out" 80 false 4 false =
        (.ok ⟨pathJoin "out" (pathStem "in/a.gif" ++ ".webp"), true⟩,
         [(pathJoin "out" (pathStem "in/a.gif" ++ ".webp"),
           .static mode (dA.frames.getD 0 defaultSrcFrame).pixels 80 false 4)]))) :=
  ⟨rfl, by decide,
   c2_flatten_keeps_isanimated_true fsA "in/a.gif" "out" 80 false 4 dA rfl (by decide)⟩

/-- C3 counterexample: a static palette GIF without a transparency
entry.  The source is a GIF (suffix ".gif"), yet the multi-format
converter encodes it with the opaque "RGB" conversion, so "alpha-capable
whenever the source is a GIF (animated or static)" fails on the code. -/
theorem c3_counterexample :
    convert_image_to_webp fs3 "in/a.gif" "out" 80 false 4 true =
      (.ok ⟨"out/a.webp", false⟩, [("out/a.webp", .static "RGB" [7] 80 false 4)])
    ∧ strLower (pathSuffix "in/a.gif") = ".gif"
    ∧ "RGB" ≠ "RGBA" :=
  ⟨rfl, rfl, by decide⟩

/-- C3 (amended): the gif-only converter always encodes with the
alpha-capable "RGBA" conversion; the multi-format converter encodes with
"RGBA" on its animated-preserve path, while on its static path the mode
is chosen by the frame's pixel layout alone — "RGBA" iff the mode is
RGBA or LA or a palette with a transparency entry — regardless of the
source format, so a static palette GIF without transparency is encoded
opaque. -/
theorem c3_mode_choice
    (fs : String → Option GifData) (inp outDir : String) (q : Nat) (l : Bool) (m : Nat)
    (pres : Bool) (d : GifData) (hd : fs inp = some d) (hne : d.frames ≠ []) :
    (∀ pf ∈ (convert_gif_to_webp fs inp outDir q l m pres).2,
       ∀ md ∈ WebPFile.modes pf.2, md = "RGBA")
    ∧ (((strLower (pathSuffix inp) == ".gif") = true
          ∧ (decide (1 < d.frames.length) && pres) = true) →
       ∀ pf ∈ (convert_image_to_webp fs inp outDir q l m pres).2,
         ∀ md ∈ WebPFile.modes pf.2, md = "RGBA")
    ∧ (((strLower (pathSuffix inp) == ".gif") = true →
          (decide (1 < d.frames.length) && pres) = false) →
       (convert_image_to_webp fs inp outDir q l m pres).2 =
         [(pathJoin outDir (pathStem inp ++ ".webp"),
           .static (staticTargetMode (d.frames.getD 0 defaultSrcFrame).mode
               (d.frames.getD 0 defaultSrcFrame).transparency)
             (d.frames.getD 0 defaultSrcFrame).pixels q l m)]) := by
  refine ⟨?_, ?_, ?_⟩
  · by_cases hbp : (decide (1 < d.frames.length) && pres) = true
    · rw [Bool.and_eq_true] at hbp
      obtain ⟨hb, hp⟩ := hbp
      subst hp
      have h2 : 2 ≤ d.frames.length := by
        have := of_decide_eq_true hb
        omega
      obtain ⟨frames, he, _, hmode⟩ := convert_gif_animated_spec hd h2
      rw [he]
      intro pf hpf
      simp only [List.mem_singleton] at hpf
      subst hpf
      intro md hmd
      simp only [WebPFile.modes, List.mem_map] at hmd
      obtain ⟨fr, hfr, rfl⟩ := hmd
      exact hmode fr hfr
    · rw [Bool.not_eq_true] at hbp
      rw [convert_gif_static_spec hd hne hbp]
      intro pf hpf
      simp only [List.mem_singleton] at hpf
      subst hpf
      intro md hmd
      simpa [WebPFile.modes] using hmd
  · rintro ⟨hsuf, hbp⟩
    rw [Bool.and_eq_true] at hbp
    obtain ⟨hb, hp⟩ := hbp
    subst hp
    have h2 : 2 ≤ d.frames.length := by
      have := of_decide_eq_true hb
      omega
    obtain ⟨frames, he, _, hmode⟩ := convert_image_gif_animated_spec hd h2 hsuf
    rw [he]
    intro pf hpf
    simp only [List.mem_singleton] at hpf
    subst hpf
    intro md hmd
    simp only [WebPFile.modes, List.mem_map] at hmd
    obtain ⟨fr, hfr, rfl⟩ := hmd
    exact hmode fr hfr
  · intro himp
    by_cases hsuf : (strLower (pathSuffix inp) == ".gif") = true
    · rw [convert_image_gif_static_spec hd hne hsuf (himp hsuf)]
    · rw [Bool.not_eq_true] at hsuf
      have hs : convert_image_to_webp fs inp outDir q l m pres =
          (.ok ⟨pathJoin outDir (pathStem inp ++ ".webp"), false⟩,
           [(pathJoin outDir (pathStem inp ++ ".webp"),
             .static (staticTargetMode (d.frames.getD 0 defaultSrcFrame).mode
                 (d.frames.getD 0 defaultSrcFrame).transparency)
               (d.frames.getD 0 defaultSrcFrame).pixels q l m)]) :=
        convert_image_nogif_spec hd hne hsuf
      rw [hs]

/-- Witness for C3's amended theorem at the static palette GIF `d3`. -/
theorem c3_witness :
    fs3 "in/a.gif" = some d3 ∧ d3.frames ≠ [] ∧
    ((∀ pf ∈ (convert_gif_to_webp fs3 "in/a.gif" "out" 80 false 4 true).2,
       ∀ md ∈ WebPFile.modes pf.2, md = "RGBA")
    ∧ (((strLower (pathSuffix "in/a.gif") == ".gif") = true
          ∧ (decide (1 < d3.frames.length) && true) = true) →
       ∀ pf ∈ (convert_image_to_webp fs3 "in/a.gif" "out" 80 false 4 true).2,
         ∀ md ∈ WebPFile.modes pf.2, md = "RGBA")
    ∧ (((strLower (pathSuffix "in/a.gif") == ".gif") = true →
          (decide (1 < d3.frames.length) && true) = false) →
       (convert_image_to_webp fs3 "in/a.gif" "out" 80 false 4 true).2 =
         [(pathJoin "out" (pathStem "in/a.gif" ++ ".webp"),
           .static (staticTargetMode (d3.frames.getD 0 defaultSrcFrame).mode
               (d3.frames.getD 0 defaultSrcFrame).transparency)
             (d3.frames.getD 0 defaultSrcFrame).pixels 80 false 4)])) :=
  ⟨rfl, by decide,
   c3_mode_choice fs3 "in/a.gif" "out" 80 false 4 true d3 rfl (by decide)⟩

/-- C4: the animation detector returns true iff seeking to frame index 1
succeeds, restores the cursor to frame index 0 on both branches, and
calling it again on the restored handle yields the same result and the
same post-condition. -/
theorem c4_detector_restores_cursor (h : Handle) (ha : 0 < h.data.frames.length) :
    is_animated_gif h = .ok (decide (1 < h.data.frames.length), { h with pos := 0 })
    ∧ is_animated_gif { h with pos := 0 }
        = .ok (decide (1 < h.data.frames.length), { h with pos := 0 })
    ∧ ((∃ h1, seek h 1 = .ok h1) ↔ 1 < h.data.frames.length) := by
  refine ⟨is_animated_gif_ok h ha, ?_, ?_⟩
  · have h2 := is_animated_gif_ok ⟨h.data, 0⟩ (by simpa using ha)
    simpa using h2
  · by_cases hc : 1 < h.data.frames.length <;> simp [seek, hc]

/-- Witness for C4 at the three-frame handle over `dA`. -/
theorem c4_witness :
    0 < (⟨dA, 0⟩ : Handle).data.frames.length ∧
    (is_animated_gif ⟨dA, 0⟩
        = .ok (decide (1 < (⟨dA, 0⟩ : Handle).data.frames.length),
            { (⟨dA, 0⟩ : Handle) with pos := 0 })
    ∧ is_animated_gif { (⟨dA, 0⟩ : Handle) with pos := 0 }
        = .ok (decide (1 < (⟨dA, 0⟩ : Handle).data.frames.length),
            { (⟨dA, 0⟩ : Handle) with pos := 0 })
    ∧ ((∃ h1, seek ⟨dA, 0⟩ 1 = .ok h1) ↔ 1 < (⟨dA, 0⟩ : Handle).data.frames.length)) :=
  ⟨by decide, c4_detector_restores_cursor ⟨dA, 0⟩ (by decide)⟩

/-- C5: the frame-extraction pass captures pairwise independent pixel
buffers: overwriting the buffer captured for frame i leaves the buffer
captured for any other frame j unchanged (no captured frame aliases the
container's reused decode buffer or another capture). -/
theorem c5_no_frame_aliasing (h : Handle) (st : Store) (i j : Nat) (buf : List Nat)
    (hpos : h.pos ≤ h.data.frames.length)
    (hi : i < (extractAddrs h st).length) (hj : j < (extractAddrs h st).length)
    (hij : i ≠ j) :
    Store.read (Store.write (extractStore h st) ((extractAddrs h st).getD i 0) buf)
        ((extractAddrs h st).getD j 0)
      = Store.read (extractStore h st) ((extractAddrs h st).getD j 0) := by
  have hfe : h.data.frames.length = h.pos + (h.data.frames.length - h.pos) := by omega
  have haddrs : extractAddrs h st =
      (List.range (h.data.frames.length - h.pos)).map
        (fun k => st.bufs.length + 2 * k + 1) := extractGo_addrs _ h st hfe
  apply store_read_write_ne
  rw [haddrs] at hi hj ⊢
  simp only [List.length_map, List.length_range] at hi hj
  rw [List.getD_eq_getElem _ _ (by simpa using hi),
      List.getD_eq_getElem _ _ (by simpa using hj)]
  simp only [List.getElem_map, List.getElem_range]
  omega

/-- Witness for C5: extracting the three-frame container `dA` and
mutating the first captured buffer leaves the second unchanged. -/
theorem c5_witness :
    (⟨dA, 0⟩ : Handle).pos ≤ (⟨dA, 0⟩ : Handle).data.frames.length
    ∧ 0 < (extractAddrs ⟨dA, 0⟩ ⟨[]⟩).length
    ∧ 1 < (extractAddrs ⟨dA, 0⟩ ⟨[]⟩).length
    ∧ (0 : Nat) ≠ 1
    ∧ Store.read
        (Store.write (extractStore ⟨dA, 0⟩ ⟨[]⟩) ((extractAddrs ⟨dA, 0⟩ ⟨[]⟩).getD 0 0) [42])
        ((extractAddrs ⟨dA, 0⟩ ⟨[]⟩).getD 1 0)
      = Store.read (extractStore ⟨dA, 0⟩ ⟨[]⟩) ((extractAddrs ⟨dA, 0⟩ ⟨[]⟩).getD 1 0) :=
  ⟨by decide, by decide, by decide, by decide,
   c5_no_frame_aliasing ⟨dA, 0⟩ ⟨[]⟩ 0 1 [42] (by decide) (by decide) (by decide) (by decide)⟩

/-- C6: for every single-frame input, each converter encodes exactly one
static image, reports is_animated = false, and returns the output path
`output_dir / (stem of the input path + ".webp")`. -/
theorem c6_static_single_frame
    (fs : String → Option GifData) (inp outDir : String) (q : Nat) (l : Bool) (m : Nat)
    (pres : Bool) (d : GifData) (f : SrcFrame)
    (hd : fs inp = some d) (h1 : d.frames = [f]) :
    convert_gif_to_webp fs inp outDir q l m pres =
      (.ok ⟨pathJoin outDir (pathStem inp ++ ".webp"), false⟩,
       [(pathJoin outDir (pathStem inp ++ ".webp"), .static "RGBA" f.pixels q l m)])
    ∧ ∃ mode, convert_image_to_webp fs inp outDir q l m pres =
      (.ok ⟨pathJoin outDir (pathStem inp ++ ".webp"), false⟩,
       [(pathJoin outDir (pathStem inp ++ ".webp"), .static mode f.pixels q l m)]) := by
  have hne : d.frames ≠ [] := by rw [h1]; simp
  have hlen1 : d.frames.length = 1 := by rw [h1]; rfl
  have hb : decide (1 < d.frames.length) = false := by simp [hlen1]
  have hstat : (decide (1 < d.frames.length) && pres) = false := by rw [hb]; simp
  have hget : d.frames.getD 0 defaultSrcFrame = f := by rw [h1]; rfl
  constructor
  · have hs := @convert_gif_static_spec fs inp outDir q l m pres d hd hne hstat
    rw [hb, hget] at hs
    exact hs
  · by_cases hsuf : (strLower (pathSuffix inp) == ".gif") = true
    · have hs := @convert_image_gif_static_spec fs inp outDir q l m pres d hd hne hsuf hstat
      rw [hb, hget] at hs
      exact ⟨_, hs⟩
    · rw [Bool.not_eq_true] at hsuf
      have hs : convert_image_to_webp fs inp outDir q l m pres =
          (.ok ⟨pathJoin outDir (pathStem inp ++ ".webp"), false⟩,
           [(pathJoin outDir (pathStem inp ++ ".webp"),
             .static (staticTargetMode (d.frames.getD 0 defaultSrcFrame).mode
                 (d.frames.getD 0 defaultSrcFrame).transparency)
               (d.frames.getD 0 defaultSrcFrame).pixels q l m)]) :=
        convert_image_nogif_spec hd hne hsuf
      rw [hget] at hs
      exact ⟨_, hs⟩

/-- Witness for C6 at the single-frame GIF `dC`. -/
theorem c6_witness :
    fsC "in/c.gif" = some dC ∧ dC.frames = [⟨[9], "P", true, some 40⟩] ∧
    (convert_gif_to_webp fsC "in/c.gif" "out" 80 false 4 true =
      (.ok ⟨pathJoin "out" (pathStem "in/c.gif" ++ ".webp"), false⟩,
       [(pathJoin "out" (pathStem "in/c.gif" ++ ".webp"),
         .static "RGBA" (⟨[9], "P", true, some 40⟩ : SrcFrame).pixels 80 false 4)])
    ∧ ∃ mode, convert_image_to_webp fsC "in/c.gif" "out" 80 false 4 true =
      (.ok ⟨pathJoin "out" (pathStem "in/c.gif" ++ ".webp"), false⟩,
       [(pathJoin "out" (pathStem "in/c.gif" ++ ".webp"),
         .static mode (⟨[9], "P", true, some 40⟩ : SrcFrame).pixels 80 false 4)])) :=
  ⟨rfl, rfl,
   c6_static_single_frame fsC "in/c.gif" "out" 80 false 4 true dC
     ⟨[9], "P", true, some 40⟩ rfl rfl⟩

/-- C7: the end-of-frames signal is never propagated: the detector
interprets it as "single frame" and returns normally with the cursor
restored, and a conversion of any decodable input never fails — in
particular never because the frame sequence ended. -/
theorem c7_eof_is_not_an_error
    (h : Handle) (ha : 0 < h.data.frames.length)
    (fs : String → Option GifData) (inp outDir : String) (q : Nat) (l : Bool) (m : Nat)
    (pres : Bool) (d : GifData) (hd : fs inp = some d) (hne : d.frames ≠ []) :
    (∃ b, is_animated_gif h = .ok (b, { h with pos := 0 }))
    ∧ (∃ res writes, convert_gif_to_webp fs inp outDir q l m pres = (.ok res, writes))
    ∧ (∃ res writes, convert_image_to_webp fs inp outDir q l m pres = (.ok res, writes)) := by
  refine ⟨⟨_, is_animated_gif_ok h ha⟩, ?_, ?_⟩
  · by_cases hbp : (decide (1 < d.frames.length) && pres) = true
    · rw [Bool.and_eq_true] at hbp
      obtain ⟨hb, hp⟩ := hbp
      subst hp
      have h2 : 2 ≤ d.frames.length := by
        have := of_decide_eq_true hb
        omega
      obtain ⟨frames, he, _, _⟩ := convert_gif_animated_spec hd h2
      exact ⟨_, _, he⟩
    · rw [Bool.not_eq_true] at hbp
      exact ⟨_, _, convert_gif_static_spec hd hne hbp⟩
  · by_cases hsuf : (strLower (pathSuffix inp) == ".gif") = true
    · by_cases hbp : (decide (1 < d.frames.length) && pres) = true
      · rw [Bool.and_eq_true] at hbp
        obtain ⟨hb, hp⟩ := hbp
        subst hp
        have h2 : 2 ≤ d.frames.length := by
          have := of_decide_eq_true hb
          omega
        obtain ⟨frames, he, _, _⟩ := convert_image_gif_animated_spec hd h2 hsuf
        exact ⟨_, _, he⟩
      · rw [Bool.not_eq_true] at hbp
        exact ⟨_, _, convert_image_gif_static_spec hd hne hsuf hbp⟩
    · rw [Bool.not_eq_true] at hsuf
      have hs : convert_image_to_webp fs inp outDir q l m pres =
          (.ok ⟨pathJoin outDir (pathStem inp ++ ".webp"), false⟩,
           [(pathJoin outDir (pathStem inp ++ ".webp"),
             .static (staticTargetMode (d.frames.getD 0 defaultSrcFrame).mode
                 (d.frames.getD 0 defaultSrcFrame).transparency)
               (d.frames.getD 0 defaultSrcFrame).pixels q l m)]) :=
        convert_image_nogif_spec hd hne hsuf
      exact ⟨_, _, hs⟩

/-- Witness for C7 at the three-frame GIF `dA`. -/
theorem c7_witness :
    0 < (⟨dA, 0⟩ : Handle).data.frames.length ∧ fsA "in/a.gif" = some dA
    ∧ dA.frames ≠ [] ∧
    ((∃ b, is_animated_gif ⟨dA, 0⟩ = .ok (b, { (⟨dA, 0⟩ : Handle) with pos := 0 }))
    ∧ (∃ res writes,
        convert_gif_to_webp fsA "in/a.gif" "out" 80 false 4 true = (.ok res, writes))
    ∧ (∃ res writes,
        convert_image_to_webp fsA "in/a.gif" "out" 80 false 4 true = (.ok res, writes))) :=
  ⟨by decide, rfl, by decide,
   c7_eof_is_not_an_error ⟨dA, 0⟩ (by decide) fsA "in/a.gif" "out" 80 false 4 true dA rfl
     (by decide)⟩

/-- C8: converting a path with no decodable file fails with the
unreadable-file error and writes no output file at all. -/
theorem c8_missing_input_errors_without_output
    (fs : String → Option GifData) (inp outDir : String) (q : Nat) (l : Bool) (m : Nat)
    (pres : Bool) (hd : fs inp = none) :
    convert_gif_to_webp fs inp outDir q l m pres = (.error .unreadableFile, [])
    ∧ convert_image_to_webp fs inp outDir q l m pres = (.error .unreadableFile, []) :=
  ⟨convert_open_fail_gif hd, convert_open_fail_image hd⟩

/-- Witness for C8 on the empty filesystem. -/
theorem c8_witness :
    fsNone "in/missing.gif" = none ∧
    (convert_gif_to_webp fsNone "in/missing.gif" "out" 80 false 4 true
        = (.error .unreadableFile, [])
    ∧ convert_image_to_webp fsNone "in/missing.gif" "out" 80 false 4 true
        = (.error .unreadableFile, [])) :=
  ⟨rfl, c8_missing_input_errors_without_output fsNone "in/missing.gif" "out" 80 false 4 true rfl⟩

/-- C9 counterexample: a file whose extension is ".gif" up to letter
case but written "a.Gif" is not returned by either finder, so extension
matching is not case-insensitive — only the all-lowercase and
all-uppercase glob patterns are tried. -/
theorem c9_counterexample :
    "a.Gif" ∉ find_gif_files ⟨["a.Gif"], ["a.Gif"]⟩ false
    ∧ "a.Gif" ∉ find_image_files ⟨["a.Gif"], ["a.Gif"]⟩ "gif" false
    ∧ strLower (pathSuffix "a.Gif") = ".gif" := by
  refine ⟨by decide, by decide, rfl⟩

/-- C9 (amended): both finders return a deduplicated list sorted in
ascending order, and a path is returned exactly when it lies in the
chosen listing (recursive or not) and its final component ends with one
of the literal glob extensions for the requested type — i.e. the
all-lowercase or all-uppercase spelling of each extension, matched
case-sensitively. -/
theorem c9_finder_sorted_dedup_case_sensitive (d : Dir) (t : String) (r : Bool) :
    List.Sorted (· ≤ ·) (find_image_files d t r)
    ∧ (find_image_files d t r).Nodup
    ∧ (∀ p, p ∈ find_image_files d t r ↔
        p ∈ (if r then d.rfiles else d.files)
          ∧ ∃ pat ∈ searchPatterns t, globSuffixMatch pat p = true)
    ∧ List.Sorted (· ≤ ·) (find_gif_files d r)
    ∧ (find_gif_files d r).Nodup
    ∧ (∀ p, p ∈ find_gif_files d r ↔
        p ∈ (if r then d.rfiles else d.files)
          ∧ (globSuffixMatch "*.gif" p = true ∨ globSuffixMatch "*.GIF" p = true)) := by
  refine ⟨pySortedSet_sorted _, pySortedSet_nodup _, ?_, ?_, ?_, ?_⟩
  · intro p
    simp only [find_image_files, mem_pySortedSet, List.mem_flatMap, List.mem_filter]
    constructor
    · rintro ⟨pat, hpat, hp, hm⟩
      exact ⟨hp, pat, hpat, hm⟩
    · rintro ⟨hp, pat, hpat, hm⟩
      exact ⟨pat, hpat, hp, hm⟩
  · cases r <;> simpa [find_gif_files] using pySortedSet_sorted _
  · cases r <;> simpa [find_gif_files] using pySortedSet_nodup _
  · intro p
    cases r <;>
      simp only [find_gif_files, mem_pySortedSet, List.mem_append, List.mem_filter,
        if_true, if_false, Bool.false_eq_true, Bool.true_eq_false] <;>
      tauto

/-- C10: in the multi-format converter, an input whose lowercased suffix
is not ".gif" never consults the animation detector (the result is the
same for every detector), reports is_animated = false, and takes the
static encoding path — regardless of how many frames the decoded
container holds. -/
theorem c10_nongif_never_probes_animation
    (det₁ det₂ : Handle → Except PyError (Bool × Handle))
    (fs : String → Option GifData) (inp outDir : String) (q : Nat) (l : Bool) (m : Nat)
    (pres : Bool) (d : GifData) (hd : fs inp = some d) (hne : d.frames ≠ [])
    (hsuf : (strLower (pathSuffix inp) == ".gif") = false) :
    convert_image_to_webp_withDet det₁ fs inp outDir q l m pres
      = convert_image_to_webp_withDet det₂ fs inp outDir q l m pres
    ∧ convert_image_to_webp fs inp outDir q l m pres =
        (.ok ⟨pathJoin outDir (pathStem inp ++ ".webp"), false⟩,
         [(pathJoin outDir (pathStem inp ++ ".webp"),
           .static (staticTargetMode (d.frames.getD 0 defaultSrcFrame).mode
               (d.frames.getD 0 defaultSrcFrame).transparency)
             (d.frames.getD 0 defaultSrcFrame).pixels q l m)]) := by
  constructor
  · rw [convert_image_nogif_spec hd hne hsuf, convert_image_nogif_spec hd hne hsuf]
  · exact convert_image_nogif_spec hd hne hsuf

/-- Witness for C10: a three-frame container stored at "in/b.png",
probed with two different detectors (the real one and one that always
fails). -/
theorem c10_witness :
    fsP "in/b.png" = some dA ∧ dA.frames ≠ []
    ∧ (strLower (pathSuffix "in/b.png") == ".gif") = false ∧
    (convert_image_to_webp_withDet is_animated_gif fsP "in/b.png" "out" 80 false 4 true
      = convert_image_to_webp_withDet (fun _ => .error .eofError) fsP "in/b.png" "out" 80 false 4 true
    ∧ convert_image_to_webp fsP "in/b.png" "out" 80 false 4 true =
        (.ok ⟨pathJoin "out" (pathStem "in/b.png" ++ ".webp"), false⟩,
         [(pathJoin "out" (pathStem "in/b.png" ++ ".webp"),
           .static (staticTargetMode (dA.frames.getD 0 defaultSrcFrame).mode
               (dA.frames.getD 0 defaultSrcFrame).transparency)
             (dA.frames.getD 0 defaultSrcFrame).pixels 80 false 4)])) :=
  ⟨rfl, by decide, by decide,
   c10_nongif_never_probes_animation is_animated_gif (fun _ => .error .eofError)
     fsP "in/b.png" "out" 80 false 4 true dA rfl (by decide) (by decide)⟩

/-- Witness for C9's amended theorem at a concrete directory listing. -/
theorem c9_witness :
    List.Sorted (· ≤ ·)
      (find_image_files ⟨["b.gif", "a.gif", "a.gif", "c.GIF", "d.Gif"], []⟩ "gif" false)
    ∧ (find_image_files ⟨["b.gif", "a.gif", "a.gif", "c.GIF", "d.Gif"], []⟩ "gif" false).Nodup
    ∧ (∀ p, p ∈ find_image_files ⟨["b.gif", "a.gif", "a.gif", "c.GIF", "d.Gif"], []⟩ "gif" false ↔
        p ∈ (if false then ([] : List String) else ["b.gif", "a.gif", "a.gif", "c.GIF", "d.Gif"])
          ∧ ∃ pat ∈ searchPatterns "gif", globSuffixMatch pat p = true)
    ∧ List.Sorted (· ≤ ·)
      (find_gif_files ⟨["b.gif", "a.gif", "a.gif", "c.GIF", "d.Gif"], []⟩ false)
    ∧ (find_gif_files ⟨["b.gif", "a.gif", "a.gif", "c.GIF", "d.Gif"], []⟩ false).Nodup
    ∧ (∀ p, p ∈ find_gif_files ⟨["b.gif", "a.gif", "a.gif", "c.GIF", "d.Gif"], []⟩ false ↔
        p ∈ (if false then ([] : List String) else ["b.gif", "a.gif", "a.gif", "c.GIF", "d.Gif"])
          ∧ (globSuffixMatch "*.gif" p = true ∨ globSuffixMatch "*.GIF" p = true)) :=
  c9_finder_sorted_dedup_case_sensitive ⟨["b.gif", "a.gif", "a.gif", "c.GIF", "d.Gif"], []⟩
    "gif" false
